import Mathlib

/-!
Shallow embedding of the BladeOfGrass path-planning editor core
(`src/js/canvas.js` CanvasManager, `src/js/app.js` App.importData, and the
`ControlsManager` playback/stats code), together with proofs about the
spec's claims.  JavaScript numbers are embedded as exact rationals (ℚ);
machine floating point is not modelled.  String-valued results such as
`toFixed(1)` outputs are modelled by their numeric value.
-/

set_option autoImplicit false

/-- A world/screen point `{x, y}`. -/
structure Pt where
  x : ℚ
  y : ℚ
deriving DecidableEq

/-- Editor interaction modes: `'ready' | 'boundary' | 'obstacle' | 'obstacle-dynamic'`. -/
inductive Mode
  | ready
  | boundary
  | obstacle
  | obstacleDynamic
deriving DecidableEq

/-- Obstacle kind: the JS `type` field, `'static' | 'dynamic'`. -/
inductive ObKind
  | staticOb
  | dynamicOb
deriving DecidableEq

/-- Obstacle ids: the JS strings `obstacle_${Date.now()}` / `dynamic_${Date.now()}`
are modelled as (kind tag, timestamp) pairs; the string formatting is injective
in both components, so this is a faithful rendering of id equality. -/
abbrev ObId := ObKind × ℕ

/-- A committed obstacle record `{id, points, type}`. -/
structure Obstacle where
  id : ObId
  points : List Pt
  type : ObKind
deriving DecidableEq

/-- The mutable fields of `CanvasManager` relevant to the editor state
(rendering context, colors and cursor handling are display-only and omitted). -/
structure CanvasState where
  boundary : List Pt
  obstacles : List Obstacle
  dynamicObstacles : List Obstacle
  plannedPath : List Pt
  currentPath : List Pt
  robotPosition : Option Pt
  mode : Mode
  currentObstacle : List Pt
  highlightedObstacle : Option ObId
  scale : ℚ
  panX : ℚ
  panY : ℚ
deriving DecidableEq

namespace Canvas

/-- `minScale = 0.2`. -/
def minScale : ℚ := 1/5

/-- `maxScale = 5.0`. -/
def maxScale : ℚ := 5

/-- The `CanvasManager` constructor field values. -/
def initState : CanvasState where
  boundary := []
  obstacles := []
  dynamicObstacles := []
  plannedPath := []
  currentPath := []
  robotPosition := none
  mode := .ready
  currentObstacle := []
  highlightedObstacle := none
  scale := 1
  panX := 0
  panY := 0

/-- `getMousePosition`: screen→world, x coordinate: `(canvasX - panX) / scale`. -/
def screenToWorldX (s : CanvasState) (canvasX : ℚ) : ℚ :=
  (canvasX - s.panX) / s.scale

/-- `getMousePosition`: screen→world, y coordinate: `(canvasY - panY) / scale`. -/
def screenToWorldY (s : CanvasState) (canvasY : ℚ) : ℚ :=
  (canvasY - s.panY) / s.scale

/-- `Math.max(minScale, Math.min(maxScale, v))`. -/
def clampScale (v : ℚ) : ℚ := max minScale (min maxScale v)

/-- `handleWheel` (canvas.js lines 181–203): zoom towards the mouse position.
`zoomFactor` is `0.9` when `deltaY > 0`, else `1.1`; the new scale is clamped,
and the pan is recomputed so the world point under the mouse stays put. -/
def handleWheel (s : CanvasState) (mouseX mouseY deltaY : ℚ) : CanvasState :=
  let zoomFactor : ℚ := if 0 < deltaY then 9/10 else 11/10
  let newScale := clampScale (s.scale * zoomFactor)
  if newScale = s.scale then s
  else
    let worldX := (mouseX - s.panX) / s.scale
    let worldY := (mouseY - s.panY) / s.scale
    { s with scale := newScale
             panX := mouseX - worldX * newScale
             panY := mouseY - worldY * newScale }

/-- `zoomIn` (canvas.js lines 702–715): zoom by `1.2` anchored at the canvas
center `(centerX, centerY)`; only the upper bound is applied. -/
def zoomIn (s : CanvasState) (centerX centerY : ℚ) : CanvasState :=
  let worldX := (centerX - s.panX) / s.scale
  let worldY := (centerY - s.panY) / s.scale
  let newScale := min maxScale (s.scale * (6/5))
  { s with scale := newScale
           panX := centerX - worldX * newScale
           panY := centerY - worldY * newScale }

/-- Default point used to totalize JS array indexing (all accesses proved or
guarded to be in bounds, so the default never shows in results). -/
def pt0 : Pt := ⟨0, 0⟩

/-- JS `Number.prototype.toFixed(1)` modelled numerically: the value named by
the one-decimal string, that is `q` rounded to the nearest tenth. -/
def toFixed1 (q : ℚ) : ℚ := ((round (10 * q) : ℤ) : ℚ) / 10

/-- The `for` loop of `calculatePolygonArea` (canvas.js lines 668–673):
`area += x_i·y_j; area -= x_j·y_i`, writing `(i + 1) % points.length` for the
loop's `j`. -/
def shoelaceLoop (points : List Pt) : ℚ :=
  (List.range points.length).foldl
    (fun area i =>
      area + (points.getD i pt0).x * (points.getD ((i + 1) % points.length) pt0).y
        - (points.getD ((i + 1) % points.length) pt0).x * (points.getD i pt0).y)
    0

/-- One cross term `x_a·y_b − x_b·y_a` of the shoelace sum. -/
def crossVal (a b : Pt) : ℚ := a.x * b.y - b.x * a.y

/-- Sum of `crossVal` over consecutive pairs of an open vertex chain
(helper for reasoning about the cyclic shoelace sum). -/
def crossSum : List Pt → ℚ
  | a :: b :: t => crossVal a b + crossSum (b :: t)
  | _ => 0

/-- The cyclic shoelace sum, as an open chain closed back to its head. -/
def cyclicSum : List Pt → ℚ
  | [] => 0
  | a :: t => crossSum ((a :: t) ++ [a])

/-- The spec's own formula (§4.4): `|Σ (x_i·y_{i+1} − x_{i+1}·y_i)| / 2` with
wraparound indexing, stated independently of the implementation loop. -/
def specShoelaceValue (points : List Pt) : ℚ :=
  |∑ i in Finset.range points.length,
      ((points.getD i pt0).x * (points.getD ((i + 1) % points.length) pt0).y
        - (points.getD ((i + 1) % points.length) pt0).x * (points.getD i pt0).y)| / 2

/-- `calculatePolygonArea` (canvas.js lines 665–678): `0` for fewer than 3
points, else the absolute shoelace value halved, converted from square pixels
to square meters (`50 px = 1 m`) and formatted with `toFixed(1)`. -/
def calculatePolygonArea (points : List Pt) : ℚ :=
  if points.length < 3 then 0
  else toFixed1 (|shoelaceLoop points| / 2 / (50 * 50))

/-- `setMode` (canvas.js lines 303–355): switching to `'ready'` clears an
incomplete boundary (1–2 points) and the in-progress obstacle buffer; the
buffer is also cleared on entering any mode. -/
def setMode (s : CanvasState) (newMode : Mode) : CanvasState :=
  let s1 :=
    if newMode = .ready then
      let b := if 0 < s.boundary.length ∧ s.boundary.length < 3 then [] else s.boundary
      { s with boundary := b, currentObstacle := ([] : List Pt) }
    else s
  { s1 with mode := newMode, currentObstacle := [] }

/-- `addBoundaryPoint` (canvas.js lines 205–217): pushes the world point onto
`boundary` (rendering/stats side effects omitted). -/
def addBoundaryPoint (s : CanvasState) (pos : Pt) : CanvasState :=
  { s with boundary := s.boundary ++ [pos] }

/-- `addObstaclePoint` (canvas.js lines 239–243). -/
def addObstaclePoint (s : CanvasState) (pos : Pt) : CanvasState :=
  { s with currentObstacle := s.currentObstacle ++ [pos] }

/-- `addDynamicObstaclePoint` (canvas.js lines 272–276). -/
def addDynamicObstaclePoint (s : CanvasState) (pos : Pt) : CanvasState :=
  { s with currentObstacle := s.currentObstacle ++ [pos] }

/-- `handleClick` (canvas.js lines 92–106): dispatch a placed point by mode. -/
def handleClick (s : CanvasState) (pos : Pt) : CanvasState :=
  match s.mode with
  | .boundary => addBoundaryPoint s pos
  | .obstacle => addObstaclePoint s pos
  | .obstacleDynamic => addDynamicObstaclePoint s pos
  | .ready => s

/-- `finishBoundary` (canvas.js lines 219–237): with `≥ 3` points the boundary
is kept and the mode returns to ready; with 1–2 points the boundary is
discarded; with 0 points nothing happens. -/
def finishBoundary (s : CanvasState) : CanvasState :=
  if 3 ≤ s.boundary.length then setMode s .ready
  else if 0 < s.boundary.length then setMode { s with boundary := [] } .ready
  else s

/-- `finishObstacle` (canvas.js lines 245–270): with `≥ 3` buffered points an
obstacle `{id: obstacle_${now}, points, type: 'static'}` is appended; with 1–2
points the buffer is discarded; with 0 points nothing happens.  `now` is the
`Date.now()` timestamp. -/
def finishObstacle (s : CanvasState) (now : ℕ) : CanvasState :=
  if 3 ≤ s.currentObstacle.length then
    setMode
      { s with
        obstacles := s.obstacles ++ [⟨(.staticOb, now), s.currentObstacle, .staticOb⟩]
        currentObstacle := ([] : List Pt) } .ready
  else if 0 < s.currentObstacle.length then
    setMode { s with currentObstacle := ([] : List Pt) } .ready
  else s

/-- `finishDynamicObstacle` (canvas.js lines 278–301): like `finishObstacle`
with id `dynamic_${now}` and type `'dynamic'`; the discard branch runs even
for an empty buffer. -/
def finishDynamicObstacle (s : CanvasState) (now : ℕ) : CanvasState :=
  if 3 ≤ s.currentObstacle.length then
    setMode
      { s with
        dynamicObstacles :=
          s.dynamicObstacles ++ [⟨(.dynamicOb, now), s.currentObstacle, .dynamicOb⟩]
        currentObstacle := ([] : List Pt) } .ready
  else
    setMode { s with currentObstacle := ([] : List Pt) } .ready

/-- `handleRightClick` (canvas.js lines 108–117): right click finishes the
current polygon only once it has at least 3 points. -/
def handleRightClick (s : CanvasState) (now : ℕ) : CanvasState :=
  if s.mode = .boundary ∧ 3 ≤ s.boundary.length then finishBoundary s
  else if s.mode = .obstacle ∧ 3 ≤ s.currentObstacle.length then finishObstacle s now
  else if s.mode = .obstacleDynamic ∧ 3 ≤ s.currentObstacle.length then
    finishDynamicObstacle s now
  else s

/-- `reset` (canvas.js lines 377–393): clears all geometry, paths, robot and
buffer, resets the pan to the origin but keeps the zoom level, then returns to
ready mode. -/
def reset (s : CanvasState) : CanvasState :=
  setMode
    { s with
      boundary := ([] : List Pt)
      obstacles := ([] : List Obstacle)
      dynamicObstacles := ([] : List Obstacle)
      plannedPath := ([] : List Pt)
      currentPath := ([] : List Pt)
      robotPosition := none
      currentObstacle := ([] : List Pt)
      panX := 0
      panY := 0 } .ready

/-- Spec data-model invariant (items 1 and 3): whenever the mode is ready, the
in-progress buffer is empty and the boundary is empty or has at least 3
points. -/
def ReadyInv (s : CanvasState) : Prop :=
  s.mode = .ready →
    s.currentObstacle = [] ∧ (s.boundary.length = 0 ∨ 3 ≤ s.boundary.length)

end Canvas

namespace App

/-- The snapshot consumed by `App.importData` (app.js lines 168–185); `none`
models an absent/falsy field. -/
structure ImportData where
  boundary : Option (List Pt)
  obstacles : Option (List Obstacle)
  dynamicObstacles : Option (List Obstacle)
  plannedPath : Option (List Pt)

/-- `App.importData`: copies the snapshot fields into the canvas verbatim,
defaulting absent fields to `[]` (`data.x || []`); no validation happens. -/
def importData (s : CanvasState) (d : ImportData) : CanvasState :=
  { s with
    boundary := d.boundary.getD []
    obstacles := d.obstacles.getD []
    dynamicObstacles := d.dynamicObstacles.getD []
    plannedPath := d.plannedPath.getD [] }

end App

/-- The playback-relevant fields of `ControlsManager` (part_001, second
version): flags, the advance cursor, and the path snapshot read from
`canvas.plannedPath`. -/
structure SimState where
  isRunning : Bool
  isPaused : Bool
  currentIndex : ℕ
  progress : ℚ
  plannedPath : List Pt
deriving DecidableEq

namespace Sim

/-- The `ControlsManager` constructor state over a given planned path. -/
def initSim (path : List Pt) : SimState where
  isRunning := false
  isPaused := false
  currentIndex := 0
  progress := 0
  plannedPath := path

/-- The synchronous prefix of `startSimulation` (part_001 lines 761–772): the
early-return guards and the conditional fresh-start reset.  The `animate`
loop it then enters is modelled by `tick`, one call per scheduled frame. -/
def startSimulationReset (s : SimState) : SimState :=
  if s.isRunning = false then s
  else if s.plannedPath.length = 0 then s
  else if s.isPaused = false ∧ s.currentIndex = 0 then
    { s with currentIndex := 0, progress := 0 }
  else s

/-- `run` (part_001 lines 710–723): with no path, an alert and no state
change; otherwise sets the flags, unconditionally resets the cursor, and
starts the loop. -/
def run (s : SimState) : SimState :=
  if s.plannedPath.length = 0 then s
  else
    startSimulationReset
      { s with isRunning := true, isPaused := false, currentIndex := 0, progress := 0 }

/-- `pause` (part_001 lines 725–729): sets `isPaused` unconditionally. -/
def pause (s : SimState) : SimState := { s with isPaused := true }

/-- `resume` (part_001 lines 731–739): only acts when running and paused. -/
def resume (s : SimState) : SimState :=
  if s.isRunning = true ∧ s.isPaused = true then
    startSimulationReset { s with isPaused := false }
  else s

/-- `stop` (part_001 lines 741–750): clears the flags and the cursor. -/
def stop (s : SimState) : SimState :=
  { s with isRunning := false, isPaused := false, currentIndex := 0, progress := 0 }

/-- One `animate` call (part_001 lines 774–811): a no-op when not running or
paused; at the last waypoint the simulation completes via `stop()`; otherwise
the progress is updated and the cursor advances. -/
def tick (s : SimState) : SimState :=
  if ¬(s.isRunning = true) ∨ s.isPaused = true then s
  else if s.plannedPath.length - 1 ≤ s.currentIndex then stop s
  else
    { s with
      progress := ((s.currentIndex : ℚ) + 1) / (s.plannedPath.length : ℚ) * 100
      currentIndex := s.currentIndex + 1 }

/-- Ray-casting `isPointInPolygon` (part_001 lines 1006–1026).  The division
is only reached when `yi` and `yj` straddle `point.y`, so `yj - yi ≠ 0`
whenever the conjunct matters, exactly as under JS short-circuiting. -/
def isPointInPolygon (point : Pt) (polygon : List Pt) : Bool :=
  if polygon.length < 3 then false
  else
    ((List.range polygon.length).foldl
      (fun (st : Bool × ℕ) i =>
        let xi := (polygon.getD i Canvas.pt0).x
        let yi := (polygon.getD i Canvas.pt0).y
        let xj := (polygon.getD st.2 Canvas.pt0).x
        let yj := (polygon.getD st.2 Canvas.pt0).y
        let inside :=
          if (decide (point.y < yi) ≠ decide (point.y < yj))
              ∧ point.x < (xj - xi) * (point.y - yi) / (yj - yi) + xi
          then !st.1 else st.1
        (inside, i))
      (false, polygon.length - 1)).1

/-- `calculateUnionArea` (part_001 lines 954–1004): 0 polygons give `0`, one
polygon its exact `calculatePolygonArea`; otherwise a 2×2-pixel grid over the
joint bounding box is sampled at cell centers against the union of the
polygons.  The `Infinity` seeds of the bounding-box folds mean the fold runs
over every vertex of every polygon; with no vertices at all the grid is empty
and the JS result is `0`, modelled by the `[]` case. -/
def calculateUnionArea (polygons : List (List Pt)) : ℚ :=
  if polygons.length = 0 then 0
  else if polygons.length = 1 then Canvas.calculatePolygonArea (polygons.getD 0 [])
  else
    match polygons.flatten with
    | [] => 0
    | p :: rest =>
      let minX := rest.foldl (fun acc q => min acc q.x) p.x
      let maxX := rest.foldl (fun acc q => max acc q.x) p.x
      let minY := rest.foldl (fun acc q => min acc q.y) p.y
      let maxY := rest.foldl (fun acc q => max acc q.y) p.y
      let cellSize : ℚ := 2
      let gridWidth := ((maxX - minX) / cellSize).ceil.toNat
      let gridHeight := ((maxY - minY) / cellSize).ceil.toNat
      let coveredCells :=
        (List.range gridWidth).foldl
          (fun (acc : ℕ) (i : ℕ) =>
            acc + (List.range gridHeight).countP (fun (j : ℕ) =>
              polygons.any (fun polygon =>
                isPointInPolygon
                  ⟨minX + ((i : ℚ) + 1/2) * cellSize, minY + ((j : ℚ) + 1/2) * cellSize⟩
                  polygon)))
          0
      (coveredCells : ℚ) * cellSize * cellSize / (50 * 50)

/-- `calculateObstaclesArea` (part_001 lines 936–952) over the two obstacle
collections.  String results are modelled by their numeric values
(`'0.0' ↦ 0`, `toFixed(1) ↦ toFixed1`, and `parseFloat` of a produced string
is the identity). -/
def calculateObstaclesArea (obstacles dynamicObstacles : List Obstacle) : ℚ :=
  let allObstacles := obstacles.map Obstacle.points ++ dynamicObstacles.map Obstacle.points
  if allObstacles.length = 0 then 0
  else if allObstacles.length = 1 then Canvas.calculatePolygonArea (allObstacles.getD 0 [])
  else Canvas.toFixed1 (calculateUnionArea allObstacles)

/-- The spec's covered-cell count (§4.4 `unionAreaApproximate`): the cells of
the uniform grid (cell size 2) over the joint bounding box whose center lies
inside at least one of the polygons. -/
def specCoveredCells (polygons : List (List Pt)) (minX minY : ℚ) (gw gh : ℕ) : ℕ :=
  ((Finset.range gw ×ˢ Finset.range gh).filter fun ij =>
    (polygons.any fun polygon =>
      isPointInPolygon
        ⟨minX + ((ij.1 : ℚ) + 1/2) * 2, minY + ((ij.2 : ℚ) + 1/2) * 2⟩ polygon) = true).card

/-- Playback operations as gated by `updateButtonStates` (part_001 lines
814–857): `runBtn` is enabled only with a path and not running, `pauseBtn`
only while running and not paused, `resumeBtn` only while running and paused,
`stopBtn` only while running; timer ticks fire on their own. -/
inductive Reachable : SimState → Prop
  | init (path : List Pt) : Reachable (initSim path)
  | doRun {s : SimState} : Reachable s → s.isRunning = false → s.plannedPath ≠ [] →
      Reachable (run s)
  | doPause {s : SimState} : Reachable s → s.isRunning = true → s.isPaused = false →
      Reachable (pause s)
  | doResume {s : SimState} : Reachable s → s.isRunning = true → s.isPaused = true →
      Reachable (resume s)
  | doStop {s : SimState} : Reachable s → s.isRunning = true → Reachable (stop s)
  | doTick {s : SimState} : Reachable s → Reachable (tick s)

end Sim

/-! ### Helper lemmas -/

@[simp] theorem crossSum_nil : Canvas.crossSum [] = 0 := rfl

@[simp] theorem crossSum_singleton (a : Pt) : Canvas.crossSum [a] = 0 := rfl

@[simp] theorem crossSum_cons2 (a b : Pt) (t : List Pt) :
    Canvas.crossSum (a :: b :: t) = Canvas.crossVal a b + Canvas.crossSum (b :: t) := rfl

@[simp] theorem cyclicSum_nil : Canvas.cyclicSum [] = 0 := rfl

@[simp] theorem cyclicSum_cons (a : Pt) (t : List Pt) :
    Canvas.cyclicSum (a :: t) = Canvas.crossSum ((a :: t) ++ [a]) := rfl

/-- Fields of `startSimulationReset`: the flags and the path are untouched,
and when reachable states satisfy `index = 0 → progress = 0` the cursor is
untouched as well. -/
theorem startSimulationReset_fields (s : SimState)
    (h0 : s.currentIndex = 0 → s.progress = 0) :
    (Sim.startSimulationReset s).currentIndex = s.currentIndex ∧
    (Sim.startSimulationReset s).progress = s.progress ∧
    (Sim.startSimulationReset s).isRunning = s.isRunning ∧
    (Sim.startSimulationReset s).isPaused = s.isPaused ∧
    (Sim.startSimulationReset s).plannedPath = s.plannedPath := by
  unfold Sim.startSimulationReset
  split_ifs with h1 h2 h3
  · exact ⟨rfl, rfl, rfl, rfl, rfl⟩
  · exact ⟨rfl, rfl, rfl, rfl, rfl⟩
  · exact ⟨h3.2.symm, (h0 h3.2).symm, rfl, rfl, rfl⟩
  · exact ⟨rfl, rfl, rfl, rfl, rfl⟩

/-- Fields of `resume` when it acts. -/
theorem resume_fields (s : SimState) (hr : s.isRunning = true) (hp : s.isPaused = true)
    (h0 : s.currentIndex = 0 → s.progress = 0) :
    (Sim.resume s).currentIndex = s.currentIndex ∧
    (Sim.resume s).progress = s.progress ∧
    (Sim.resume s).isRunning = true ∧
    (Sim.resume s).isPaused = false ∧
    (Sim.resume s).plannedPath = s.plannedPath := by
  unfold Sim.resume
  rw [if_pos ⟨hr, hp⟩]
  have h := startSimulationReset_fields { s with isPaused := false } (fun h => h0 h)
  simpa [hr] using h

/-! ### Claims -/

/-- C10: `reset` clears the boundary, both obstacle collections, the planned
and current paths, the in-progress buffer and the robot position, resets the
pan offset to `(0, 0)`, and leaves the zoom scale unchanged. -/
theorem claim10_reset_keeps_scale (s : CanvasState) :
    (Canvas.reset s).boundary = [] ∧
    (Canvas.reset s).obstacles = [] ∧
    (Canvas.reset s).dynamicObstacles = [] ∧
    (Canvas.reset s).plannedPath = [] ∧
    (Canvas.reset s).currentPath = [] ∧
    (Canvas.reset s).currentObstacle = [] ∧
    (Canvas.reset s).robotPosition = none ∧
    (Canvas.reset s).panX = 0 ∧
    (Canvas.reset s).panY = 0 ∧
    (Canvas.reset s).scale = s.scale ∧
    (Canvas.reset s).mode = Mode.ready := by
  simp [Canvas.reset, Canvas.setMode]

/-- C2: zoom-to-cursor invariance.  For a view state with
`minScale ≤ scale ≤ maxScale`, the world point under the zoom focal point is
unchanged by `handleWheel` (mouse focal point) and by `zoomIn` (canvas-center
focal point); over exact rationals the equality is exact, hence within any
floating-point tolerance. -/
theorem focal_pan_cancel (w f C : ℚ) (hC : C ≠ 0) : (f - (f - w * C)) / C = w := by
  rw [show f - (f - w * C) = w * C from by ring, mul_div_cancel_right₀ _ hC]

theorem claim2_zoom_to_cursor_invariance (s : CanvasState) (mouseX mouseY deltaY cX cY : ℚ)
    (hlo : Canvas.minScale ≤ s.scale) (hhi : s.scale ≤ Canvas.maxScale) :
    (Canvas.screenToWorldX (Canvas.handleWheel s mouseX mouseY deltaY) mouseX
        = Canvas.screenToWorldX s mouseX ∧
      Canvas.screenToWorldY (Canvas.handleWheel s mouseX mouseY deltaY) mouseY
        = Canvas.screenToWorldY s mouseY) ∧
    (Canvas.screenToWorldX (Canvas.zoomIn s cX cY) cX = Canvas.screenToWorldX s cX ∧
      Canvas.screenToWorldY (Canvas.zoomIn s cX cY) cY = Canvas.screenToWorldY s cY) := by
  have hs : (0 : ℚ) < s.scale :=
    lt_of_lt_of_le (by norm_num [Canvas.minScale]) hlo
  have hs0 : s.scale ≠ 0 := ne_of_gt hs
  have hcl : ∀ v : ℚ, Canvas.clampScale v ≠ 0 := fun v => by
    unfold Canvas.clampScale
    exact ne_of_gt (lt_of_lt_of_le (by norm_num [Canvas.minScale]) (le_max_left _ _))
  constructor
  · simp only [Canvas.handleWheel]
    split_ifs with h1 h2 h3
    · exact ⟨rfl, rfl⟩
    · constructor <;>
        (dsimp only [Canvas.screenToWorldX, Canvas.screenToWorldY]
         exact focal_pan_cancel _ _ _ (hcl _))
    · exact ⟨rfl, rfl⟩
    · constructor <;>
        (dsimp only [Canvas.screenToWorldX, Canvas.screenToWorldY]
         exact focal_pan_cancel _ _ _ (hcl _))
  · have hz0 : min Canvas.maxScale (s.scale * (6/5)) ≠ 0 := by
      refine ne_of_gt (lt_min ?_ ?_)
      · norm_num [Canvas.maxScale]
      · positivity
    constructor <;>
      (dsimp only [Canvas.zoomIn, Canvas.screenToWorldX, Canvas.screenToWorldY]
       exact focal_pan_cancel _ _ _ hz0)

/-- Witness for C2 at a concrete view state and focal points. -/
theorem claim2_zoom_to_cursor_invariance_witness :
    Canvas.minScale ≤ Canvas.initState.scale ∧ Canvas.initState.scale ≤ Canvas.maxScale ∧
    Canvas.screenToWorldX (Canvas.handleWheel Canvas.initState 3 4 1) 3
      = Canvas.screenToWorldX Canvas.initState 3 :=
  ⟨by norm_num [Canvas.minScale, Canvas.initState],
   by norm_num [Canvas.maxScale, Canvas.initState],
   (claim2_zoom_to_cursor_invariance Canvas.initState 3 4 1 5 6
      (by norm_num [Canvas.minScale, Canvas.initState])
      (by norm_num [Canvas.maxScale, Canvas.initState])).1.1⟩

/-- C1 counterexample: the claim says `run()` resets the cursor only when
starting fresh (`index == 0` and not resuming from pause); but pausing at
index 1 and then invoking `run()` (the space-bar resume path calls `run`, not
`resume`) resets the cursor to 0 although the state was neither at index 0 nor
a fresh start. -/
theorem claim1_counterexample :
    (Sim.pause (Sim.tick (Sim.run (Sim.initSim
        [⟨0, 0⟩, ⟨10, 0⟩, ⟨20, 0⟩, ⟨30, 0⟩])))).isPaused = true ∧
    (Sim.pause (Sim.tick (Sim.run (Sim.initSim
        [⟨0, 0⟩, ⟨10, 0⟩, ⟨20, 0⟩, ⟨30, 0⟩])))).currentIndex = 1 ∧
    (Sim.run (Sim.pause (Sim.tick (Sim.run (Sim.initSim
        [⟨0, 0⟩, ⟨10, 0⟩, ⟨20, 0⟩, ⟨30, 0⟩]))))).currentIndex = 0 := by
  norm_num [Sim.run, Sim.pause, Sim.tick, Sim.initSim, Sim.startSimulationReset]

/-- C1 amended: `pause` and `resume` preserve the cursor (`index`, `progress`)
and the next tick after a resume advances from the preserved index; `stop`
always resets the cursor to 0; but `run` resets the cursor to 0 whenever a
path exists — unconditionally, not only when starting fresh (the fresh-start
condition only guards the redundant reset inside `startSimulation`). -/
theorem claim1_pause_resume_stop_run_cursor (s : SimState) :
    ((Sim.pause s).currentIndex = s.currentIndex ∧ (Sim.pause s).progress = s.progress) ∧
    (s.isRunning = true → s.isPaused = true → (s.currentIndex = 0 → s.progress = 0) →
      (Sim.resume s).currentIndex = s.currentIndex ∧ (Sim.resume s).progress = s.progress) ∧
    ((Sim.stop s).currentIndex = 0 ∧ (Sim.stop s).progress = 0) ∧
    (s.plannedPath ≠ [] →
      (Sim.run s).currentIndex = 0 ∧ (Sim.run s).progress = 0 ∧
      (Sim.run s).isRunning = true ∧ (Sim.run s).isPaused = false) ∧
    (s.isRunning = true → s.isPaused = true → s.currentIndex + 1 < s.plannedPath.length →
      (s.currentIndex = 0 → s.progress = 0) →
      (Sim.tick (Sim.resume s)).currentIndex = s.currentIndex + 1) := by
  refine ⟨⟨rfl, rfl⟩, ?_, ⟨rfl, rfl⟩, ?_, ?_⟩
  · intro hr hp h0
    have h := resume_fields s hr hp h0
    exact ⟨h.1, h.2.1⟩
  · intro hne
    have hlen : s.plannedPath.length ≠ 0 := by
      simpa [List.length_eq_zero] using hne
    unfold Sim.run
    rw [if_neg hlen]
    have h := startSimulationReset_fields
      { s with isRunning := true, isPaused := false, currentIndex := 0, progress := 0 }
      (fun _ => rfl)
    exact ⟨h.1, h.2.1, h.2.2.1, h.2.2.2.1⟩
  · intro hr hp hlt h0
    obtain ⟨hc, hprog, hrun, hpaus, hpath⟩ := resume_fields s hr hp h0
    unfold Sim.tick
    rw [hrun, hpaus, hpath, hc]
    rw [if_neg (by simp : ¬(¬(true = true) ∨ false = true)),
      if_neg (by omega : ¬(s.plannedPath.length - 1 ≤ s.currentIndex))]

/-- Witness for the C1 amended theorem at a concrete paused state. -/
theorem claim1_pause_resume_stop_run_cursor_witness :
    (Sim.pause (Sim.tick (Sim.run (Sim.initSim
        [⟨0, 0⟩, ⟨10, 0⟩, ⟨20, 0⟩, ⟨30, 0⟩])))).isRunning = true ∧
    (Sim.pause (Sim.tick (Sim.run (Sim.initSim
        [⟨0, 0⟩, ⟨10, 0⟩, ⟨20, 0⟩, ⟨30, 0⟩])))).isPaused = true ∧
    (Sim.resume (Sim.pause (Sim.tick (Sim.run (Sim.initSim
        [⟨0, 0⟩, ⟨10, 0⟩, ⟨20, 0⟩, ⟨30, 0⟩]))))).currentIndex
      = (Sim.pause (Sim.tick (Sim.run (Sim.initSim
        [⟨0, 0⟩, ⟨10, 0⟩, ⟨20, 0⟩, ⟨30, 0⟩])))).currentIndex := by
  have h1 : (Sim.pause (Sim.tick (Sim.run (Sim.initSim
      [⟨0, 0⟩, ⟨10, 0⟩, ⟨20, 0⟩, ⟨30, 0⟩])))).isRunning = true := by
    norm_num [Sim.run, Sim.pause, Sim.tick, Sim.initSim, Sim.startSimulationReset]
  have h2 : (Sim.pause (Sim.tick (Sim.run (Sim.initSim
      [⟨0, 0⟩, ⟨10, 0⟩, ⟨20, 0⟩, ⟨30, 0⟩])))).isPaused = true := by
    norm_num [Sim.run, Sim.pause, Sim.tick, Sim.initSim, Sim.startSimulationReset]
  have h3 : (Sim.pause (Sim.tick (Sim.run (Sim.initSim
      [⟨0, 0⟩, ⟨10, 0⟩, ⟨20, 0⟩, ⟨30, 0⟩])))).currentIndex = 0 →
      (Sim.pause (Sim.tick (Sim.run (Sim.initSim
      [⟨0, 0⟩, ⟨10, 0⟩, ⟨20, 0⟩, ⟨30, 0⟩])))).progress = 0 := by
    norm_num [Sim.run, Sim.pause, Sim.tick, Sim.initSim, Sim.startSimulationReset]
  exact ⟨h1, h2,
    ((claim1_pause_resume_stop_run_cursor _).2.1 h1 h2 h3).1⟩

/-- C7 counterexample: `pause()` has no precondition check, so calling it
while not running sets `paused := true`, breaking the invariant
`running = false ⇒ paused = false` and changing the state (not a no-op). -/
theorem claim7_counterexample :
    (Sim.pause (Sim.initSim [])).isRunning = false ∧
    (Sim.pause (Sim.initSim [])).isPaused = true ∧
    Sim.pause (Sim.initSim []) ≠ Sim.initSim [] := by
  refine ⟨rfl, rfl, fun h => ?_⟩
  have h2 : (Sim.pause (Sim.initSim [])).isPaused
      = (Sim.initSim ([] : List Pt)).isPaused := by rw [h]
  simp [Sim.pause, Sim.initSim] at h2

/-- C7 amended: under the button gating of `updateButtonStates` (`pauseBtn`
enabled only while running and not paused, etc.), every reachable state
satisfies `running = false → paused = false`; and `resume()` is an idempotent
no-op when its precondition fails.  The raw `pause()` method itself is not
guarded (see the counterexample). -/
theorem startSimulationReset_isRunning (s : SimState) :
    (Sim.startSimulationReset s).isRunning = s.isRunning := by
  unfold Sim.startSimulationReset
  split_ifs <;> rfl

theorem resume_isRunning (s : SimState) : (Sim.resume s).isRunning = s.isRunning := by
  unfold Sim.resume
  split_ifs with h
  · rw [startSimulationReset_isRunning]
  · rfl

theorem claim7_gated_invariant :
    (∀ s : SimState, Sim.Reachable s → s.isRunning = false → s.isPaused = false) ∧
    (∀ s : SimState, ¬(s.isRunning = true ∧ s.isPaused = true) → Sim.resume s = s) := by
  constructor
  · intro s h
    induction h with
    | init path => intro _; rfl
    | doRun _ hr hne ih =>
      rename_i s' hreach
      intro hrun
      exfalso
      have hlen : s'.plannedPath.length ≠ 0 := by
        simpa [List.length_eq_zero] using hne
      unfold Sim.run at hrun
      rw [if_neg hlen, startSimulationReset_isRunning] at hrun
      simp at hrun
    | doPause _ hr hp ih =>
      rename_i s' hreach
      intro hrun
      have h3 : s'.isRunning = false := hrun
      rw [hr] at h3
      simp at h3
    | doResume _ hr hp ih =>
      rename_i s' hreach
      intro hrun
      rw [resume_isRunning, hr] at hrun
      simp at hrun
    | doStop _ hr ih => intro _; rfl
    | doTick _ ih =>
      rename_i s' hreach
      unfold Sim.tick
      split_ifs with h1 h2
      · exact ih
      · intro _; rfl
      · intro hrun
        rw [not_or, not_not] at h1
        have h3 : s'.isRunning = false := hrun
        rw [h1.1] at h3
        simp at h3
  · intro s h
    unfold Sim.resume
    rw [if_neg h]

/-- Witness for the C7 amended theorem at the initial state. -/
theorem claim7_gated_invariant_witness :
    (Sim.initSim []).isPaused = false ∧ Sim.resume (Sim.initSim []) = Sim.initSim [] :=
  ⟨claim7_gated_invariant.1 (Sim.initSim []) (Sim.Reachable.init []) rfl,
   claim7_gated_invariant.2 (Sim.initSim []) (by simp [Sim.initSim])⟩

/-- C8 counterexample: `importData` copies the snapshot fields verbatim, so
importing a 2-point boundary into the ready-mode initial state yields a Ready
state whose boundary has 2 points, violating the invariant. -/
theorem claim8_counterexample :
    (App.importData Canvas.initState ⟨some [⟨0, 0⟩, ⟨1, 1⟩], none, none, none⟩).mode
      = Mode.ready ∧
    (App.importData Canvas.initState
      ⟨some [⟨0, 0⟩, ⟨1, 1⟩], none, none, none⟩).boundary.length = 2 ∧
    ¬ Canvas.ReadyInv
      (App.importData Canvas.initState ⟨some [⟨0, 0⟩, ⟨1, 1⟩], none, none, none⟩) := by
  refine ⟨rfl, rfl, fun h => ?_⟩
  obtain ⟨-, h2⟩ := h rfl
  simp [App.importData, Canvas.initState] at h2

/-- C8 amended: every operation that sets the mode preserves the Ready
invariant — `setMode` even establishes it unconditionally, and the point and
finish operations preserve it — but session import (`importData`) does not
validate the snapshot and can break it (see the counterexample). -/
theorem claim8_mode_setting_preserves_ready_invariant :
    (∀ (s : CanvasState) (m : Mode), Canvas.ReadyInv (Canvas.setMode s m)) ∧
    (∀ (s : CanvasState) (p : Pt),
      Canvas.ReadyInv s → Canvas.ReadyInv (Canvas.handleClick s p)) ∧
    (∀ s : CanvasState, Canvas.ReadyInv s → Canvas.ReadyInv (Canvas.finishBoundary s)) ∧
    (∀ (s : CanvasState) (now : ℕ),
      Canvas.ReadyInv s → Canvas.ReadyInv (Canvas.finishObstacle s now)) ∧
    (∀ (s : CanvasState) (now : ℕ), Canvas.ReadyInv (Canvas.finishDynamicObstacle s now)) ∧
    (∀ s : CanvasState, Canvas.ReadyInv (Canvas.reset s)) := by
  have hmode : ∀ (s : CanvasState) (m : Mode), (Canvas.setMode s m).mode = m :=
    fun s m => rfl
  have hcur : ∀ (s : CanvasState) (m : Mode), (Canvas.setMode s m).currentObstacle = [] :=
    fun s m => rfl
  have hbdy : ∀ s : CanvasState, (Canvas.setMode s Mode.ready).boundary
      = if 0 < s.boundary.length ∧ s.boundary.length < 3 then [] else s.boundary :=
    fun s => rfl
  have hset : ∀ (s : CanvasState) (m : Mode), Canvas.ReadyInv (Canvas.setMode s m) := by
    intro s m hm
    rw [hmode] at hm
    subst hm
    refine ⟨hcur _ _, ?_⟩
    rw [hbdy]
    split_ifs with hb
    · simp
    · omega
  refine ⟨hset, ?_, ?_, ?_, ?_, ?_⟩
  · intro s p h
    cases hm : s.mode with
    | ready =>
      intro hmode
      simpa [Canvas.handleClick, hm] using h hm
    | boundary =>
      intro hmode
      simp [Canvas.handleClick, hm, Canvas.addBoundaryPoint] at hmode
    | obstacle =>
      intro hmode
      simp [Canvas.handleClick, hm, Canvas.addObstaclePoint] at hmode
    | obstacleDynamic =>
      intro hmode
      simp [Canvas.handleClick, hm, Canvas.addDynamicObstaclePoint] at hmode
  · intro s h
    unfold Canvas.finishBoundary
    split_ifs with h1 h2
    · exact hset _ _
    · exact hset _ _
    · exact h
  · intro s now h
    unfold Canvas.finishObstacle
    split_ifs with h1 h2
    · exact hset _ _
    · exact hset _ _
    · exact h
  · intro s now
    unfold Canvas.finishDynamicObstacle
    split_ifs with h1
    · exact hset _ _
    · exact hset _ _
  · intro s
    exact hset _ _

/-- Witness for the C8 amended theorem at a concrete state. -/
theorem claim8_mode_setting_preserves_ready_invariant_witness :
    Canvas.ReadyInv (Canvas.handleClick Canvas.initState ⟨1, 1⟩) :=
  claim8_mode_setting_preserves_ready_invariant.2.1 Canvas.initState ⟨1, 1⟩
    (fun _ => ⟨rfl, Or.inl rfl⟩)

/-- C9 counterexample: with a committed 3-point boundary, entering boundary
mode and placing one point appends it to the committed boundary at once — the
previously committed boundary does not stay unchanged until a successful
finish. -/
theorem claim9_counterexample :
    (Canvas.handleClick
        (Canvas.setMode
          { Canvas.initState with boundary := [⟨0, 0⟩, ⟨100, 0⟩, ⟨0, 100⟩] } Mode.boundary)
        ⟨50, 50⟩).boundary
      = [⟨0, 0⟩, ⟨100, 0⟩, ⟨0, 100⟩, ⟨50, 50⟩] ∧
    (Canvas.handleClick
        (Canvas.setMode
          { Canvas.initState with boundary := [⟨0, 0⟩, ⟨100, 0⟩, ⟨0, 100⟩] } Mode.boundary)
        ⟨50, 50⟩).boundary
      ≠ [⟨0, 0⟩, ⟨100, 0⟩, ⟨0, 100⟩] := by
  constructor
  · rfl
  · intro h
    have h4 : (Canvas.handleClick
        (Canvas.setMode
          { Canvas.initState with boundary := [⟨0, 0⟩, ⟨100, 0⟩, ⟨0, 100⟩] } Mode.boundary)
        ⟨50, 50⟩).boundary
      = [⟨0, 0⟩, ⟨100, 0⟩, ⟨0, 100⟩, ⟨50, 50⟩] := rfl
    rw [h4] at h
    simp at h

/-- C9 amended: starting boundary drawing leaves the committed boundary intact
at mode entry, but each placed point is appended directly to the committed
boundary (there is no separate boundary buffer); a finish with `≥ 3` total
points keeps the grown polygon. -/
theorem claim9_redraw_appends_to_committed_boundary (s : CanvasState) (q : Pt) :
    (Canvas.setMode s Mode.boundary).boundary = s.boundary ∧
    (s.mode = Mode.boundary → (Canvas.handleClick s q).boundary = s.boundary ++ [q]) ∧
    (3 ≤ s.boundary.length →
      (Canvas.finishBoundary s).boundary = s.boundary ∧
      (Canvas.finishBoundary s).mode = Mode.ready) := by
  refine ⟨?_, ?_, ?_⟩
  · simp [Canvas.setMode]
  · intro hm
    simp [Canvas.handleClick, hm, Canvas.addBoundaryPoint]
  · intro h3
    unfold Canvas.finishBoundary
    rw [if_pos h3]
    unfold Canvas.setMode
    constructor
    · simp only [if_pos rfl]
      have : ¬(0 < s.boundary.length ∧ s.boundary.length < 3) := by omega
      simp [this]
    · rfl

/-- Witness for the C9 amended theorem at a concrete state. -/
theorem claim9_redraw_appends_to_committed_boundary_witness :
    (Canvas.setMode
        { Canvas.initState with boundary := [⟨0, 0⟩, ⟨100, 0⟩, ⟨0, 100⟩] }
        Mode.boundary).mode = Mode.boundary ∧
    (Canvas.handleClick
        (Canvas.setMode
          { Canvas.initState with boundary := [⟨0, 0⟩, ⟨100, 0⟩, ⟨0, 100⟩] } Mode.boundary)
        ⟨50, 50⟩).boundary
      = (Canvas.setMode
          { Canvas.initState with boundary := [⟨0, 0⟩, ⟨100, 0⟩, ⟨0, 100⟩] }
          Mode.boundary).boundary ++ [⟨50, 50⟩] :=
  ⟨rfl,
   (claim9_redraw_appends_to_committed_boundary
      (Canvas.setMode
        { Canvas.initState with boundary := [⟨0, 0⟩, ⟨100, 0⟩, ⟨0, 100⟩] } Mode.boundary)
      ⟨50, 50⟩).2.1 rfl⟩

/-- C3: finishing with exactly 2 buffered points never commits (registry and a
committed — hence empty-or-`≥3`-point — boundary unchanged, buffer
discarded); finishing with exactly 3 points always commits, appending one
record whose kind matches the finish operation and whose id is fresh as long
as the `Date.now()` stamp differs from the stamps already in the registry. -/
theorem claim3_finish_commit_threshold (s : CanvasState) (now : ℕ) :
    (s.currentObstacle.length = 2 →
      (Canvas.finishObstacle s now).obstacles = s.obstacles ∧
      (Canvas.finishObstacle s now).dynamicObstacles = s.dynamicObstacles ∧
      (Canvas.finishObstacle s now).currentObstacle = [] ∧
      (Canvas.finishDynamicObstacle s now).obstacles = s.obstacles ∧
      (Canvas.finishDynamicObstacle s now).dynamicObstacles = s.dynamicObstacles ∧
      (Canvas.finishDynamicObstacle s now).currentObstacle = []) ∧
    ((s.boundary.length = 0 ∨ 3 ≤ s.boundary.length) →
      (Canvas.finishObstacle s now).boundary = s.boundary ∧
      (Canvas.finishDynamicObstacle s now).boundary = s.boundary) ∧
    (s.boundary.length = 2 →
      (Canvas.finishBoundary s).boundary = [] ∧
      (Canvas.finishBoundary s).obstacles = s.obstacles ∧
      (Canvas.finishBoundary s).dynamicObstacles = s.dynamicObstacles) ∧
    (s.currentObstacle.length = 3 →
      (Canvas.finishObstacle s now).obstacles
        = s.obstacles ++ [⟨(ObKind.staticOb, now), s.currentObstacle, ObKind.staticOb⟩] ∧
      (Canvas.finishObstacle s now).currentObstacle = [] ∧
      (Canvas.finishObstacle s now).mode = Mode.ready ∧
      (Canvas.finishDynamicObstacle s now).dynamicObstacles
        = s.dynamicObstacles ++ [⟨(ObKind.dynamicOb, now), s.currentObstacle, ObKind.dynamicOb⟩]) ∧
    (s.boundary.length = 3 →
      (Canvas.finishBoundary s).boundary = s.boundary ∧
      (Canvas.finishBoundary s).mode = Mode.ready) ∧
    ((∀ o ∈ s.obstacles, o.id.2 ≠ now) →
      (ObKind.staticOb, now) ∉ s.obstacles.map Obstacle.id) := by
  refine ⟨?_, ?_, ?_, ?_, ?_, ?_⟩
  · intro h2
    have hn3 : ¬ 3 ≤ s.currentObstacle.length := by omega
    have hp : 0 < s.currentObstacle.length := by omega
    unfold Canvas.finishObstacle Canvas.finishDynamicObstacle
    rw [if_neg hn3, if_pos hp, if_neg hn3]
    simp [Canvas.setMode]
  · intro hb
    have hkeep : ¬(0 < s.boundary.length ∧ s.boundary.length < 3) := by omega
    unfold Canvas.finishObstacle Canvas.finishDynamicObstacle
    split_ifs <;> simp [Canvas.setMode, hkeep]
  · intro h2
    have hn3 : ¬ 3 ≤ s.boundary.length := by omega
    have hp : 0 < s.boundary.length := by omega
    unfold Canvas.finishBoundary
    rw [if_neg hn3, if_pos hp]
    simp [Canvas.setMode]
  · intro h3
    have h3' : 3 ≤ s.currentObstacle.length := by omega
    unfold Canvas.finishObstacle Canvas.finishDynamicObstacle
    rw [if_pos h3', if_pos h3']
    simp [Canvas.setMode]
  · intro h3
    have h3' : 3 ≤ s.boundary.length := by omega
    have hkeep : ¬(0 < s.boundary.length ∧ s.boundary.length < 3) := by omega
    unfold Canvas.finishBoundary
    rw [if_pos h3']
    simp [Canvas.setMode, hkeep]
  · intro hfresh hmem
    rw [List.mem_map] at hmem
    obtain ⟨o, ho, hid⟩ := hmem
    exact hfresh o ho (congrArg Prod.snd hid)

/-- Witness for C3 at a concrete state with a 3-point buffer. -/
theorem claim3_finish_commit_threshold_witness :
    ({ Canvas.initState with
        currentObstacle := [⟨0, 0⟩, ⟨1, 0⟩, ⟨0, 1⟩] } : CanvasState).currentObstacle.length
      = 3 ∧
    (Canvas.finishObstacle
        { Canvas.initState with currentObstacle := [⟨0, 0⟩, ⟨1, 0⟩, ⟨0, 1⟩] } 7).obstacles
      = [⟨(ObKind.staticOb, 7), [⟨0, 0⟩, ⟨1, 0⟩, ⟨0, 1⟩], ObKind.staticOb⟩] :=
  ⟨rfl,
   ((claim3_finish_commit_threshold
      { Canvas.initState with currentObstacle := [⟨0, 0⟩, ⟨1, 0⟩, ⟨0, 1⟩] } 7).2.2.2.1
      rfl).1⟩

theorem foldlAddSub_eq_sum (f g : ℕ → ℚ) (l : List ℕ) :
    ∀ c : ℚ, l.foldl (fun area i => area + f i - g i) c
      = c + (l.map fun i => f i - g i).sum := by
  induction l with
  | nil => intro c; simp
  | cons i t ih =>
    intro c
    simp only [List.foldl_cons, List.map_cons, List.sum_cons, ih]
    ring

theorem listRangeSum_eq_finsetSum {M : Type*} [AddCommMonoid M] (f : ℕ → M) (n : ℕ) :
    ((List.range n).map f).sum = ∑ i in Finset.range n, f i := by
  induction n with
  | zero => simp
  | succ m ih =>
    rw [List.range_succ, List.map_append, List.sum_append, Finset.sum_range_succ, ih]
    simp

theorem shoelaceLoop_eq_sum (points : List Pt) :
    Canvas.shoelaceLoop points
      = ∑ i in Finset.range points.length,
          Canvas.crossVal (points.getD i Canvas.pt0)
            (points.getD ((i + 1) % points.length) Canvas.pt0) := by
  unfold Canvas.shoelaceLoop
  rw [foldlAddSub_eq_sum
      (fun i => (points.getD i Canvas.pt0).x
        * (points.getD ((i + 1) % points.length) Canvas.pt0).y)
      (fun i => (points.getD ((i + 1) % points.length) Canvas.pt0).x
        * (points.getD i Canvas.pt0).y),
    listRangeSum_eq_finsetSum]
  simp [Canvas.crossVal]

theorem crossSum_eq_sum (m : List Pt) :
    Canvas.crossSum m = ∑ i in Finset.range (m.length - 1),
      Canvas.crossVal (m.getD i Canvas.pt0) (m.getD (i + 1) Canvas.pt0) := by
  induction m with
  | nil => simp
  | cons a t ih =>
    cases t with
    | nil => simp
    | cons b t2 =>
      rw [crossSum_cons2, ih]
      have hlen : (a :: b :: t2).length - 1 = t2.length + 1 := by simp
      have hlen2 : (b :: t2).length - 1 = t2.length := by simp
      rw [hlen, hlen2, Finset.sum_range_succ']
      simp only [List.getD_cons_succ, List.getD_cons_zero]
      ring

theorem shoelaceLoop_eq_cyclicSum (l : List Pt) :
    Canvas.shoelaceLoop l = Canvas.cyclicSum l := by
  cases l with
  | nil => simp [Canvas.shoelaceLoop]
  | cons a t =>
    rw [shoelaceLoop_eq_sum, cyclicSum_cons, crossSum_eq_sum]
    have h1 : (a :: t).length = t.length + 1 := rfl
    have h2 : ((a :: t) ++ [a]).length - 1 = t.length + 1 := by simp
    rw [h1, h2, Finset.sum_range_succ, Finset.sum_range_succ]
    congr 1
    · apply Finset.sum_congr rfl
      intro i hi
      rw [Finset.mem_range] at hi
      rw [Nat.mod_eq_of_lt (by omega : i + 1 < t.length + 1)]
      congr 1
      · rw [List.getD_append _ _ _ _ (by simp; omega)]
      · rw [List.getD_append _ _ _ _ (by simp; omega)]
    · rw [Nat.mod_self]
      congr 1
      · rw [List.getD_append _ _ _ _ (by simp)]
      · rw [List.getD_append_right _ _ _ _ (by simp)]
        simp

theorem crossSum_append_pair (u v : Pt) (m : List Pt) :
    Canvas.crossSum (m ++ [u, v]) = Canvas.crossSum (m ++ [u]) + Canvas.crossVal u v := by
  induction m with
  | nil => simp
  | cons a m2 ih =>
    cases m2 with
    | nil => simp
    | cons c m3 =>
      simp only [List.cons_append, crossSum_cons2] at ih ⊢
      rw [ih]
      ring

theorem crossSum_reverse (m : List Pt) :
    Canvas.crossSum m.reverse = - Canvas.crossSum m := by
  induction m with
  | nil => simp
  | cons a m2 ih =>
    cases m2 with
    | nil => simp
    | cons b t =>
      have h1 : (a :: b :: t).reverse = t.reverse ++ [b, a] := by simp
      have h2 : t.reverse ++ [b] = (b :: t).reverse := by simp
      rw [h1, crossSum_append_pair, h2, ih, crossSum_cons2]
      unfold Canvas.crossVal
      ring

theorem cyclicSum_rotate_one (l : List Pt) :
    Canvas.cyclicSum (l.rotate 1) = Canvas.cyclicSum l := by
  cases l with
  | nil => simp
  | cons a t =>
    have hrot : (a :: t).rotate 1 = t ++ [a] := by
      rw [List.rotate_cons_succ, List.rotate_zero]
    rw [hrot]
    cases t with
    | nil => simp
    | cons b t2 =>
      have hL : (b :: t2) ++ [a] = b :: (t2 ++ [a]) := by simp
      rw [hL, cyclicSum_cons, cyclicSum_cons]
      have hL2 : (b :: (t2 ++ [a])) ++ [b] = (b :: t2) ++ [a, b] := by simp
      rw [hL2, crossSum_append_pair]
      have hR : (a :: b :: t2) ++ [a] = a :: b :: (t2 ++ [a]) := by simp
      rw [hR, crossSum_cons2]
      have hR2 : b :: (t2 ++ [a]) = (b :: t2) ++ [a] := by simp
      rw [hR2]
      ring

theorem cyclicSum_rotate (l : List Pt) (k : ℕ) :
    Canvas.cyclicSum (l.rotate k) = Canvas.cyclicSum l := by
  induction k with
  | zero => rw [List.rotate_zero]
  | succ m ih =>
    have h : l.rotate (m + 1) = (l.rotate m).rotate 1 := by
      rw [List.rotate_rotate]
    rw [h, cyclicSum_rotate_one, ih]

theorem cyclicSum_reverse (l : List Pt) :
    Canvas.cyclicSum l.reverse = - Canvas.cyclicSum l := by
  cases l with
  | nil => simp
  | cons a xs =>
    have h1 : (a :: xs).reverse = xs.reverse ++ [a] := List.reverse_cons a xs
    have h2 : (xs.reverse ++ [a]).rotate xs.reverse.length = [a] ++ xs.reverse := by
      rw [List.rotate_eq_drop_append_take (by simp)]
      rw [List.drop_left, List.take_left]
    have h3 : Canvas.cyclicSum ((a :: xs).reverse) = Canvas.cyclicSum (a :: xs.reverse) := by
      rw [h1, ← cyclicSum_rotate (xs.reverse ++ [a]) xs.reverse.length, h2]
      rfl
    rw [h3, cyclicSum_cons, cyclicSum_cons]
    have h4 : ((a :: xs) ++ [a]).reverse = (a :: xs.reverse) ++ [a] := by simp
    calc Canvas.crossSum ((a :: xs.reverse) ++ [a])
        = Canvas.crossSum (((a :: xs) ++ [a]).reverse) := by rw [h4]
      _ = - Canvas.crossSum ((a :: xs) ++ [a]) := crossSum_reverse _

/-- C4 counterexample: for the boundary `[(0,0),(100,0),(100,100),(0,100)]`
the raw shoelace value is 10000 square pixels, but `calculatePolygonArea`
divides by `50² = 2500` (pixel→meter conversion) and formats with
`toFixed(1)`, returning 4, not 10000. -/
theorem claim4_counterexample :
    Canvas.calculatePolygonArea [⟨0, 0⟩, ⟨100, 0⟩, ⟨100, 100⟩, ⟨0, 100⟩] = 4 ∧
    Canvas.calculatePolygonArea [⟨0, 0⟩, ⟨100, 0⟩, ⟨100, 100⟩, ⟨0, 100⟩] ≠ 10000 := by
  have hsl : Canvas.shoelaceLoop [⟨0, 0⟩, ⟨100, 0⟩, ⟨100, 100⟩, ⟨0, 100⟩] = 20000 := by
    rw [shoelaceLoop_eq_cyclicSum]
    norm_num [Canvas.crossVal]
  have h : Canvas.calculatePolygonArea [⟨0, 0⟩, ⟨100, 0⟩, ⟨100, 100⟩, ⟨0, 100⟩] = 4 := by
    rw [Canvas.calculatePolygonArea, if_neg (by norm_num), hsl]
    norm_num [Canvas.toFixed1, round_eq]
  exact ⟨h, by rw [h]; norm_num⟩

/-- C4 amended: `calculatePolygonArea` returns 0 for fewer than 3 points, and
otherwise the spec's shoelace value `|Σ (x_i·y_{i+1} − x_{i+1}·y_i)|/2` —
converted from square pixels to square meters (divided by `50²`) and rounded
to one decimal by `toFixed(1)`; for `[(0,0),(100,0),(100,100),(0,100)]` the
result is 4 (m²), the raw shoelace value being 10000 (px²). -/
theorem claim4_shoelace_formula (points : List Pt) :
    (points.length < 3 → Canvas.calculatePolygonArea points = 0) ∧
    (3 ≤ points.length →
      Canvas.calculatePolygonArea points
        = Canvas.toFixed1 (Canvas.specShoelaceValue points / (50 * 50))) ∧
    Canvas.specShoelaceValue [⟨0, 0⟩, ⟨100, 0⟩, ⟨100, 100⟩, ⟨0, 100⟩] = 10000 ∧
    Canvas.calculatePolygonArea [⟨0, 0⟩, ⟨100, 0⟩, ⟨100, 100⟩, ⟨0, 100⟩] = 4 := by
  have hspec : ∀ ps : List Pt,
      Canvas.specShoelaceValue ps = |Canvas.shoelaceLoop ps| / 2 := by
    intro ps
    unfold Canvas.specShoelaceValue
    rw [shoelaceLoop_eq_sum]
    simp [Canvas.crossVal]
  have hsl : Canvas.shoelaceLoop [⟨0, 0⟩, ⟨100, 0⟩, ⟨100, 100⟩, ⟨0, 100⟩] = 20000 := by
    rw [shoelaceLoop_eq_cyclicSum]
    norm_num [Canvas.crossVal]
  refine ⟨?_, ?_, ?_, ?_⟩
  · intro h
    rw [Canvas.calculatePolygonArea, if_pos h]
  · intro h
    rw [Canvas.calculatePolygonArea, if_neg (by omega), hspec, div_div]
  · rw [hspec, hsl]
    norm_num
  · rw [Canvas.calculatePolygonArea, if_neg (by norm_num), hsl]
    norm_num [Canvas.toFixed1, round_eq]

/-- Witness for the C4 amended theorem at the concrete square boundary. -/
theorem claim4_shoelace_formula_witness :
    3 ≤ ([⟨0, 0⟩, ⟨100, 0⟩, ⟨100, 100⟩, ⟨0, 100⟩] : List Pt).length ∧
    Canvas.calculatePolygonArea [⟨0, 0⟩, ⟨100, 0⟩, ⟨100, 100⟩, ⟨0, 100⟩]
      = Canvas.toFixed1
          (Canvas.specShoelaceValue [⟨0, 0⟩, ⟨100, 0⟩, ⟨100, 100⟩, ⟨0, 100⟩] / (50 * 50)) :=
  ⟨by norm_num,
   (claim4_shoelace_formula [⟨0, 0⟩, ⟨100, 0⟩, ⟨100, 100⟩, ⟨0, 100⟩]).2.1 (by norm_num)⟩

/-- C5 counterexample: `calculatePolygonArea` takes an absolute value, so
reversing the vertex order of the triangle `[(0,0),(100,0),(0,100)]` leaves
the result at 2 — it does not change sign. -/
theorem claim5_counterexample :
    Canvas.calculatePolygonArea ([⟨0, 0⟩, ⟨100, 0⟩, ⟨0, 100⟩] : List Pt).reverse = 2 ∧
    Canvas.calculatePolygonArea [⟨0, 0⟩, ⟨100, 0⟩, ⟨0, 100⟩] = 2 ∧
    ¬ (Canvas.calculatePolygonArea ([⟨0, 0⟩, ⟨100, 0⟩, ⟨0, 100⟩] : List Pt).reverse
        = - Canvas.calculatePolygonArea [⟨0, 0⟩, ⟨100, 0⟩, ⟨0, 100⟩]) := by
  have h1 : Canvas.shoelaceLoop [⟨0, 0⟩, ⟨100, 0⟩, ⟨0, 100⟩] = 10000 := by
    rw [shoelaceLoop_eq_cyclicSum]
    norm_num [Canvas.crossVal]
  have h2 : Canvas.shoelaceLoop ([⟨0, 0⟩, ⟨100, 0⟩, ⟨0, 100⟩] : List Pt).reverse = -10000 := by
    rw [show ([⟨0, 0⟩, ⟨100, 0⟩, ⟨0, 100⟩] : List Pt).reverse
        = [⟨0, 100⟩, ⟨100, 0⟩, ⟨0, 0⟩] from rfl]
    rw [shoelaceLoop_eq_cyclicSum]
    norm_num [Canvas.crossVal]
  have ha : Canvas.calculatePolygonArea [⟨0, 0⟩, ⟨100, 0⟩, ⟨0, 100⟩] = 2 := by
    rw [Canvas.calculatePolygonArea, if_neg (by norm_num), h1]
    norm_num [Canvas.toFixed1, round_eq]
  have hb : Canvas.calculatePolygonArea ([⟨0, 0⟩, ⟨100, 0⟩, ⟨0, 100⟩] : List Pt).reverse = 2 := by
    rw [Canvas.calculatePolygonArea, if_neg (by norm_num), h2]
    norm_num [Canvas.toFixed1, round_eq]
  refine ⟨hb, ha, ?_⟩
  rw [ha, hb]
  norm_num

/-- C5 amended: `calculatePolygonArea` is invariant under every cyclic
rotation of the vertex order, and invariant (magnitude unchanged, but no sign
change — the function takes an absolute value) under reversal; the underlying
signed shoelace loop value does change sign under reversal. -/
theorem claim5_rotation_reversal (l : List Pt) (k : ℕ) (h3 : 3 ≤ l.length) :
    Canvas.calculatePolygonArea (l.rotate k) = Canvas.calculatePolygonArea l ∧
    Canvas.calculatePolygonArea l.reverse = Canvas.calculatePolygonArea l ∧
    Canvas.shoelaceLoop l.reverse = - Canvas.shoelaceLoop l := by
  have hrot : Canvas.shoelaceLoop (l.rotate k) = Canvas.shoelaceLoop l := by
    rw [shoelaceLoop_eq_cyclicSum, shoelaceLoop_eq_cyclicSum, cyclicSum_rotate]
  have hrev : Canvas.shoelaceLoop l.reverse = - Canvas.shoelaceLoop l := by
    rw [shoelaceLoop_eq_cyclicSum, shoelaceLoop_eq_cyclicSum, cyclicSum_reverse]
  refine ⟨?_, ?_, hrev⟩
  · unfold Canvas.calculatePolygonArea
    rw [List.length_rotate, hrot]
  · unfold Canvas.calculatePolygonArea
    rw [List.length_reverse, hrev, abs_neg]

/-- Witness for the C5 amended theorem at a concrete square and rotation. -/
theorem claim5_rotation_reversal_witness :
    3 ≤ ([⟨0, 0⟩, ⟨100, 0⟩, ⟨100, 100⟩, ⟨0, 100⟩] : List Pt).length ∧
    Canvas.calculatePolygonArea (([⟨0, 0⟩, ⟨100, 0⟩, ⟨100, 100⟩, ⟨0, 100⟩] : List Pt).rotate 1)
      = Canvas.calculatePolygonArea [⟨0, 0⟩, ⟨100, 0⟩, ⟨100, 100⟩, ⟨0, 100⟩] :=
  ⟨by norm_num,
   (claim5_rotation_reversal [⟨0, 0⟩, ⟨100, 0⟩, ⟨100, 100⟩, ⟨0, 100⟩] 1 (by norm_num)).1⟩

theorem foldlAdd_eq_sum (f : ℕ → ℕ) (l : List ℕ) :
    ∀ c : ℕ, l.foldl (fun acc i => acc + f i) c = c + (l.map f).sum := by
  induction l with
  | nil => intro c; simp
  | cons i t ih =>
    intro c
    simp only [List.foldl_cons, List.map_cons, List.sum_cons, ih]
    omega

theorem countP_range_eq_card_filter (q : ℕ → Bool) (n : ℕ) :
    (List.range n).countP q = ((Finset.range n).filter fun j => q j = true).card := by
  induction n with
  | zero => simp
  | succ m ih =>
    rw [List.range_succ, List.countP_append, Finset.range_succ, Finset.filter_insert]
    by_cases h : q m = true
    · rw [if_pos h, Finset.card_insert_of_not_mem (by simp)]
      simp [List.countP_cons, h, ih]
    · rw [if_neg h]
      simp [List.countP_cons, h, ih]

theorem sum_card_filter_product (q : ℕ → ℕ → Bool) (gw gh : ℕ) :
    ∑ i in Finset.range gw, ((Finset.range gh).filter fun j => q i j = true).card
      = ((Finset.range gw ×ˢ Finset.range gh).filter fun ij => q ij.1 ij.2 = true).card := by
  rw [Finset.card_filter, Finset.sum_product]
  apply Finset.sum_congr rfl
  intro i hi
  rw [Finset.card_filter]

/-- C6: `calculateUnionArea` returns 0 for no polygons; for exactly one it
returns exactly that polygon's `calculatePolygonArea`; for two or more it
returns the number of grid cells (cell size 2) over the joint bounding box
whose center lies inside at least one polygon, times the cell area, converted
from square pixels to square meters; `calculateObstaclesArea` inherits the 0-
and 1-obstacle cases. -/
theorem claim6_union_area (polys : List (List Pt)) (p : Pt) (rest : List Pt)
    (h2 : 2 ≤ polys.length) (hflat : polys.flatten = p :: rest) :
    Sim.calculateUnionArea [] = 0 ∧
    (∀ poly : List Pt, Sim.calculateUnionArea [poly] = Canvas.calculatePolygonArea poly) ∧
    (Sim.calculateUnionArea polys
      = (Sim.specCoveredCells polys
          (rest.foldl (fun acc q => min acc q.x) p.x)
          (rest.foldl (fun acc q => min acc q.y) p.y)
          (((rest.foldl (fun acc q => max acc q.x) p.x
              - rest.foldl (fun acc q => min acc q.x) p.x) / 2).ceil.toNat)
          (((rest.foldl (fun acc q => max acc q.y) p.y
              - rest.foldl (fun acc q => min acc q.y) p.y) / 2).ceil.toNat) : ℚ)
        * (2 * 2) / (50 * 50)) ∧
    Sim.calculateObstaclesArea [] [] = 0 ∧
    (∀ ob : Obstacle,
      Sim.calculateObstaclesArea [ob] [] = Canvas.calculatePolygonArea ob.points ∧
      Sim.calculateObstaclesArea [] [ob] = Canvas.calculatePolygonArea ob.points) := by
  refine ⟨rfl, fun poly => rfl, ?_, rfl, fun ob => ⟨rfl, rfl⟩⟩
  have hl0 : ¬ polys.length = 0 := by omega
  have hl1 : ¬ polys.length = 1 := by omega
  unfold Sim.calculateUnionArea
  rw [if_neg hl0, if_neg hl1, hflat]
  dsimp only
  rw [foldlAdd_eq_sum, listRangeSum_eq_finsetSum]
  rw [Nat.cast_add, Nat.cast_zero, zero_add]
  unfold Sim.specCoveredCells
  simp only [countP_range_eq_card_filter]
  rw [sum_card_filter_product]
  ring

/-- Witness for C6 at two concrete triangles. -/
theorem claim6_union_area_witness :
    2 ≤ ([[⟨0, 0⟩, ⟨2, 0⟩, ⟨0, 2⟩], [⟨2, 2⟩, ⟨4, 2⟩, ⟨2, 4⟩]] : List (List Pt)).length ∧
    ([[⟨0, 0⟩, ⟨2, 0⟩, ⟨0, 2⟩], [⟨2, 2⟩, ⟨4, 2⟩, ⟨2, 4⟩]] : List (List Pt)).flatten
      = (⟨0, 0⟩ : Pt) :: [⟨2, 0⟩, ⟨0, 2⟩, ⟨2, 2⟩, ⟨4, 2⟩, ⟨2, 4⟩] ∧
    Sim.calculateUnionArea [[⟨0, 0⟩, ⟨2, 0⟩, ⟨0, 2⟩], [⟨2, 2⟩, ⟨4, 2⟩, ⟨2, 4⟩]]
      = (Sim.specCoveredCells [[⟨0, 0⟩, ⟨2, 0⟩, ⟨0, 2⟩], [⟨2, 2⟩, ⟨4, 2⟩, ⟨2, 4⟩]]
          (([⟨2, 0⟩, ⟨0, 2⟩, ⟨2, 2⟩, ⟨4, 2⟩, ⟨2, 4⟩] : List Pt).foldl
            (fun acc q => min acc q.x) (⟨0, 0⟩ : Pt).x)
          (([⟨2, 0⟩, ⟨0, 2⟩, ⟨2, 2⟩, ⟨4, 2⟩, ⟨2, 4⟩] : List Pt).foldl
            (fun acc q => min acc q.y) (⟨0, 0⟩ : Pt).y)
          (((([⟨2, 0⟩, ⟨0, 2⟩, ⟨2, 2⟩, ⟨4, 2⟩, ⟨2, 4⟩] : List Pt).foldl
                (fun acc q => max acc q.x) (⟨0, 0⟩ : Pt).x
              - ([⟨2, 0⟩, ⟨0, 2⟩, ⟨2, 2⟩, ⟨4, 2⟩, ⟨2, 4⟩] : List Pt).foldl
                (fun acc q => min acc q.x) (⟨0, 0⟩ : Pt).x) / 2).ceil.toNat)
          (((([⟨2, 0⟩, ⟨0, 2⟩, ⟨2, 2⟩, ⟨4, 2⟩, ⟨2, 4⟩] : List Pt).foldl
                (fun acc q => max acc q.y) (⟨0, 0⟩ : Pt).y
              - ([⟨2, 0⟩, ⟨0, 2⟩, ⟨2, 2⟩, ⟨4, 2⟩, ⟨2, 4⟩] : List Pt).foldl
                (fun acc q => min acc q.y) (⟨0, 0⟩ : Pt).y) / 2).ceil.toNat) : ℚ)
        * (2 * 2) / (50 * 50) :=
  ⟨by decide, rfl,
   (claim6_union_area [[⟨0, 0⟩, ⟨2, 0⟩, ⟨0, 2⟩], [⟨2, 2⟩, ⟨4, 2⟩, ⟨2, 4⟩]]
      ⟨0, 0⟩ [⟨2, 0⟩, ⟨0, 2⟩, ⟨2, 2⟩, ⟨4, 2⟩, ⟨2, 4⟩] (by decide) rfl).2.2.1⟩
